import Mathlib

/-!
Shallow embedding of `coco_rasa/coco_rasa.py` (the coco-rasa plugin).

The repository contains one policy class, `CoCoMappingPolicy`, with the
deterministic decision procedure `predict_action_probabilities`, a pair of
persistence methods `persist` / `load` for the priority integer, and the
action adapter `coco_run` that calls the external exchange service.

Python values that can be `None` or a string (slot values, the latest
action name) are embedded as `PyVal`; dictionaries become association
lists; a Python runtime error (AttributeError on `None`, a failed assert,
indexing with `None`, an unexpected keyword argument) becomes the
`Except.error` side of the result.
-/

/-- Embedding of the Python values relevant here: `None` or a string.
Slot values and `tracker.latest_action_name` range over these. -/
inductive PyVal where
  | none
  | str (s : String)
deriving DecidableEq, Repr

/-- Python truthiness on `PyVal`: `None` and the empty string are falsy,
any other string is truthy (mirrors `if active_component:` and `if slot`). -/
def PyVal.truthy : PyVal → Bool
  | .none => false
  | .str s => s ≠ ""

/-- Embedding of `dict.get(key)` on a Python dictionary represented as an
association list: the value at the first matching key, if any. -/
def dictGet {α : Type} (d : List (String × α)) (k : String) : Option α :=
  (d.find? (fun p => p.1 = k)).map (fun p => p.2)

/-- Embedding of Python `str.endswith(suffix)`. -/
def pyEndsWith (s suffix : String) : Bool :=
  suffix.data.isSuffixOf s.data

/-- Raised Python runtime errors that the embedded code can produce. -/
inductive PyError where
  | attributeError
  | assertionError
  | typeError
deriving DecidableEq, Repr

/-- `ACTION_LISTEN_NAME` imported from `rasa.core.actions.action`. -/
def ACTION_LISTEN_NAME : String := "action_listen"

/-- `type(self).__name__` for the policy class in this repository. -/
def POLICY_CLASS_NAME : String := "CoCoMappingPolicy"

/-- An `ActionExecuted` event in the tracker event log: the executed
action name and the name of the policy that predicted it (or `None`). -/
structure ActionExecutedEv where
  action_name : String
  policy : Option String
deriving DecidableEq, Repr

/-- The slice of `rasa.core.trackers.DialogueStateTracker` that
`predict_action_probabilities` reads: the `ActionExecuted` events of the
log in order, and the slot dictionary. A slot object is collapsed to its
`.value`; a missing entry in `slots` means `slots.get` returns `None`. -/
structure CoreTracker where
  events : List ActionExecutedEv
  slots : List (String × PyVal)
deriving DecidableEq, Repr

/-- `tracker.latest_action_name`: the action name of the most recent
`ActionExecuted` event, or `None` when no action has been executed. -/
def CoreTracker.latest_action_name (t : CoreTracker) : PyVal :=
  match t.events.getLast? with
  | Option.none => .none
  | some e => .str e.action_name

/-- `tracker.get_last_event_for(ActionExecuted)`: the most recent
`ActionExecuted` event, if any. -/
def CoreTracker.get_last_action_executed (t : CoreTracker) : Option ActionExecutedEv :=
  t.events.getLast?

/-- First index of `name` in a list of action names, `none` when absent. -/
def idxOf? (name : String) : List String → Option Nat
  | [] => Option.none
  | a :: rest =>
    if a = name then some 0 else (idxOf? name rest).map (fun i => i + 1)

/-- The slice of `rasa.core.domain.Domain` used here: the ordered list of
known action names. -/
structure CocoDomain where
  action_names : List String
deriving DecidableEq, Repr

/-- `domain.num_actions`. -/
def CocoDomain.num_actions (d : CocoDomain) : Nat :=
  d.action_names.length

/-- `domain.index_for_action(name)`: the index of a known action,
`None` for an action unknown to the registry (the repository code guards
the result with `if idx is None`). -/
def CocoDomain.index_for_action (d : CocoDomain) (name : String) : Option Nat :=
  idxOf? name d.action_names

/-- `CoCoMappingPolicy`: its only state is the priority integer
(`__init__` default 6). -/
structure CoCoMappingPolicy where
  priority : Int
deriving DecidableEq, Repr

/-- `CoCoMappingPolicy.predict_action_probabilities(tracker, domain)`.

Returns either a raised Python error, or the prediction vector paired
with a flag recording whether `warnings.warn` was called. The vector
holds the values 0 and 1 the Python code writes into it; `num_actions`
entries, all zero initially.

Source, line by line: build `[0.0] * domain.num_actions`; read
`tracker.slots.get("active_component").value` (an AttributeError when the
slot is absent); if the latest action is `action_listen` and the marker
is truthy, predict the marker action when known and warn when unknown;
elif the latest action name equals the marker and the marker is not
`None`, fetch the last `ActionExecuted` event, assert its name equals
the marker, and predict `action_listen` exactly when that event was
predicted by a policy whose truthy name ends with the class name
(indexing the vector with `None` is a TypeError); else predict nothing. -/
def predict_action_probabilities (t : CoreTracker) (d : CocoDomain) :
    Except PyError (List Nat × Bool) :=
  let prediction := List.replicate d.num_actions 0
  match dictGet t.slots "active_component" with
  | Option.none => .error .attributeError
  | some active_component =>
    if t.latest_action_name = PyVal.str ACTION_LISTEN_NAME then
      match active_component with
      | .str s =>
        if s ≠ "" then
          match d.index_for_action s with
          | Option.none => .ok (prediction, true)
          | some idx => .ok (prediction.set idx 1, false)
        else
          .ok (prediction, false)
      | .none => .ok (prediction, false)
    else if t.latest_action_name = active_component ∧ active_component ≠ PyVal.none then
      match t.get_last_action_executed with
      | Option.none => .error .attributeError
      | some latest_action =>
        if PyVal.str latest_action.action_name ≠ active_component then
          .error .assertionError
        else
          match latest_action.policy with
          | some p =>
            if p ≠ "" ∧ pyEndsWith p POLICY_CLASS_NAME then
              match d.index_for_action ACTION_LISTEN_NAME with
              | Option.none => .error .typeError
              | some idx => .ok (prediction.set idx 1, false)
            else
              .ok (prediction, false)
          | Option.none => .ok (prediction, false)
    else
      .ok (prediction, false)

/-- The JSON object persisted for the policy, at the level the repository
manipulates it: a dictionary with integer values (the host helpers
`dump_obj_as_json_to_file` / `json.loads` round-trip it). -/
abbrev PolicyMeta := List (String × Int)

/-- The file store the persistence code writes to, file path to parsed
content. -/
abbrev FileStore := List (String × PolicyMeta)

/-- `os.path.join(path, file)` for the directory-plus-name uses here. -/
def pathJoin (dir file : String) : String :=
  dir ++ "/" ++ file

/-- The persisted file name used by both `persist` and `load`. -/
def POLICY_FILE_NAME : String := "coco_mapping_policy.json"

/-- `CoCoMappingPolicy.persist(path)`: write the dictionary containing
only the priority to `<path>/coco_mapping_policy.json`. -/
def CoCoMappingPolicy.persist (self : CoCoMappingPolicy) (path : String)
    (fs : FileStore) : FileStore :=
  let config_file := pathJoin path POLICY_FILE_NAME
  let meta : PolicyMeta := [("priority", self.priority)]
  (config_file, meta) :: fs

/-- `cls(**meta)`: the constructor accepts no arguments (priority
defaults to 6) or exactly the `priority` keyword; any other keyword is a
TypeError. -/
def policyFromMeta : PolicyMeta → Except PyError CoCoMappingPolicy
  | [] => .ok { priority := 6 }
  | [("priority", n)] => .ok { priority := n }
  | _ => .error .typeError

/-- `CoCoMappingPolicy.load(path)`: `meta` starts empty; when the path
exists and holds `coco_mapping_policy.json`, `meta` becomes the parsed
file; the policy is constructed as `cls(**meta)`. A missing directory
and a missing file both leave `meta` empty, represented here as the file
path being absent from the store. -/
def CoCoMappingPolicy.load (path : String) (fs : FileStore) :
    Except PyError CoCoMappingPolicy :=
  let meta :=
    match dictGet fs (pathJoin path POLICY_FILE_NAME) with
    | some m => m
    | Option.none => []
  policyFromMeta meta

/-- The response object the external `coco.exchange` call returns: the
user-facing message, the updated-context dictionary, and the completion
flag. -/
structure CocoResponse where
  response : String
  updated_context : List (String × PyVal)
  component_done : Bool

/-- One invocation of `coco.exchange`, with the arguments the adapter
passes. -/
structure ExchangeRequest where
  component_name : String
  session_id : String
  user_input : Option String
  context : List (String × PyVal)
  flatten_context : Bool
deriving DecidableEq, Repr

/-- The slice of the `rasa_sdk` tracker that `coco_run` reads. -/
structure SdkTracker where
  sender_id : String
  latest_message : List (String × String)
  slots : List (String × PyVal)

/-- A `SlotSet` event returned to the host framework. -/
structure SlotSetEv where
  key : String
  value : PyVal
deriving DecidableEq, Repr

/-- What one call of `coco_run` does: the exchange requests it issued,
the messages dispatched through the dispatcher, and the event list it
returns. -/
structure CocoRunResult where
  requests : List ExchangeRequest
  messages : List String
  events : List SlotSetEv

/-- `coco_run(component_name, dispatcher, tracker, domain)`, with the
external service supplied as the function `exchange`.

Source, line by line: `coco_in_context` keeps the truthy slots;
`coco.exchange` is called once with the component name, the sender id,
the latest message text, that context and `flatten_context=True`;
`returned_slots` is one `SlotSet` per updated-context item; the response
message is dispatched; `active_component` is the component name while
the component is not done and the empty string otherwise; the returned
events are the `active_component` `SlotSet` followed by
`returned_slots`. -/
def coco_run (component_name : String) (exchange : ExchangeRequest → CocoResponse)
    (t : SdkTracker) : CocoRunResult :=
  let coco_in_context := t.slots.filter (fun p => p.2.truthy)
  let req : ExchangeRequest :=
    { component_name := component_name
      session_id := t.sender_id
      user_input := dictGet t.latest_message "text"
      context := coco_in_context
      flatten_context := true }
  let coco_resp := exchange req
  let returned_slots :=
    coco_resp.updated_context.map (fun p => SlotSetEv.mk p.1 p.2)
  let active_component := if ¬ coco_resp.component_done then component_name else ""
  { requests := [req]
    messages := [coco_resp.response]
    events := SlotSetEv.mk "active_component" (.str active_component) :: returned_slots }

/-- An index returned by `idxOf?` is a valid position in the list. -/
theorem idxOf?_lt_length {name : String} {l : List String} {i : Nat}
    (h : idxOf? name l = some i) : i < l.length := by
  induction l generalizing i with
  | nil => simp [idxOf?] at h
  | cons a rest ih =>
    rw [idxOf?] at h
    by_cases ha : a = name
    · rw [if_pos ha] at h
      cases h
      simp
    · rw [if_neg ha] at h
      cases hj : idxOf? name rest with
      | none =>
        rw [hj] at h
        simp at h
      | some j =>
        rw [hj] at h
        simp at h
        have hlt := ih hj
        simp only [List.length_cons]
        omega

/-- C9: implicit precondition on the slot dictionary: when the tracker
has no entry for the slot named active_component, the unconditional
`.value` access on the result of `slots.get` raises an AttributeError,
so `predict_action_probabilities` fails instead of returning a vector. -/
theorem C9_missing_slot_raises (t : CoreTracker) (d : CocoDomain)
    (h : dictGet t.slots "active_component" = Option.none) :
    predict_action_probabilities t d = .error .attributeError := by
  simp [predict_action_probabilities, h]

/-- C9 witness: a tracker with an empty slot dictionary makes the
prediction call fail with the attribute error. -/
theorem C9_witness :
    predict_action_probabilities ⟨[], []⟩ ⟨["action_listen"]⟩
      = .error .attributeError :=
  C9_missing_slot_raises ⟨[], []⟩ ⟨["action_listen"]⟩ rfl

/-- C10: implicit default on load: when the store holds no file at
`<path>/coco_mapping_policy.json` (the directory does not exist, or it
exists without that file), `load` succeeds and yields the default
priority 6. -/
theorem C10_load_defaults (path : String) (fs : FileStore)
    (h : dictGet fs (pathJoin path POLICY_FILE_NAME) = Option.none) :
    CoCoMappingPolicy.load path fs = .ok { priority := 6 } := by
  simp [CoCoMappingPolicy.load, h, policyFromMeta]

/-- C10 witness: loading from an empty store yields priority 6. -/
theorem C10_witness :
    CoCoMappingPolicy.load "some/model/dir" [] = .ok { priority := 6 } :=
  C10_load_defaults "some/model/dir" [] rfl

/-- C6: round-trip: persisting a policy with any priority writes exactly
the object with the single key priority to
`<path>/coco_mapping_policy.json`, and loading from that path
reconstructs a policy with the same priority. -/
theorem C6_persist_load_roundtrip (priority : Int) (path : String) (fs : FileStore) :
    dictGet (CoCoMappingPolicy.persist ⟨priority⟩ path fs)
        (pathJoin path POLICY_FILE_NAME) = some [("priority", priority)] ∧
    CoCoMappingPolicy.load path (CoCoMappingPolicy.persist ⟨priority⟩ path fs)
      = .ok ⟨priority⟩ := by
  constructor
  · simp [CoCoMappingPolicy.persist, dictGet]
  · simp [CoCoMappingPolicy.load, CoCoMappingPolicy.persist, dictGet, policyFromMeta]

/-- C7: for every exchange response, `coco_run` dispatches exactly the
one message carried by the response, and returns the SlotSet for
active_component (the component name while the component is not done,
the empty string once it is) followed by one SlotSet per updated-context
item. -/
theorem C7_response_translation (component : String) (t : SdkTracker)
    (resp : CocoResponse) :
    (coco_run component (fun _ => resp) t).messages = [resp.response] ∧
    (coco_run component (fun _ => resp) t).events =
      SlotSetEv.mk "active_component"
          (.str (if resp.component_done then "" else component)) ::
        resp.updated_context.map (fun p => SlotSetEv.mk p.1 p.2) := by
  constructor
  · rfl
  · cases hdone : resp.component_done <;> simp [coco_run, hdone]

/-- C8: `coco_run` issues exactly one exchange request, whose context is
exactly the truthy slots of the tracker; a slot pair enters the context
precisely when it is a tracker slot with a truthy value. -/
theorem C8_single_call_truthy_context (component : String)
    (exchange : ExchangeRequest → CocoResponse) (t : SdkTracker) :
    (coco_run component exchange t).requests =
      [{ component_name := component
         session_id := t.sender_id
         user_input := dictGet t.latest_message "text"
         context := t.slots.filter (fun p => p.2.truthy)
         flatten_context := true }] ∧
    ∀ kv : String × PyVal,
      kv ∈ t.slots.filter (fun p => p.2.truthy) ↔ kv ∈ t.slots ∧ kv.2.truthy := by
  constructor
  · rfl
  · intro kv
    simp [List.mem_filter]

/-- C8 witness: at a concrete tracker holding a truthy, a falsy-string
and a None slot, the single request context keeps only the truthy one. -/
theorem C8_witness :
    (coco_run "generic_coco" (fun _ => ⟨"hi", [], true⟩)
        ⟨"sender1", [("text", "hello")],
          [("a", .str "x"), ("b", .str ""), ("c", .none)]⟩).requests =
      [{ component_name := "generic_coco"
         session_id := "sender1"
         user_input := some "hello"
         context := [("a", .str "x")]
         flatten_context := true }] :=
  (C8_single_call_truthy_context "generic_coco" (fun _ => ⟨"hi", [], true⟩)
    ⟨"sender1", [("text", "hello")],
      [("a", .str "x"), ("b", .str ""), ("c", .none)]⟩).1

/-- C1: when the latest executed action is the listen action and the
active_component marker is a non-empty string naming an action known to
the domain, the prediction is a vector of length `num_actions` with
exactly one entry equal to 1, at that action index, and 0 everywhere
else (and no warning, no error). -/
theorem C1_listen_predicts_marker (t : CoreTracker) (d : CocoDomain)
    (s : String) (idx : Nat)
    (hslot : dictGet t.slots "active_component" = some (.str s))
    (hne : s ≠ "")
    (hlisten : t.latest_action_name = .str ACTION_LISTEN_NAME)
    (hidx : d.index_for_action s = some idx) :
    predict_action_probabilities t d =
        .ok ((List.replicate d.num_actions 0).set idx 1, false) ∧
    ((List.replicate d.num_actions 0).set idx 1).length = d.num_actions ∧
    ((List.replicate d.num_actions 0).set idx 1)[idx]? = some 1 ∧
    ∀ j, j < d.num_actions → j ≠ idx →
      ((List.replicate d.num_actions 0).set idx 1)[j]? = some 0 := by
  have hlt : idx < d.num_actions := idxOf?_lt_length hidx
  refine ⟨?_, ?_, ?_, ?_⟩
  · simp only [predict_action_probabilities, hslot, hlisten]
    simp [hne, hidx]
  · simp
  · exact List.getElem?_set_eq_of_lt 1 (by simpa using hlt)
  · intro j hj hjne
    rw [List.getElem?_set_ne (by omega : idx ≠ j)]
    simp [List.getElem?_replicate, hj]

/-- C1 witness: a concrete tracker that just listened with marker comp,
on a domain knowing comp at index 1, predicts the one-hot vector at
index 1. -/
theorem C1_witness :
    predict_action_probabilities
        ⟨[⟨"action_listen", Option.none⟩], [("active_component", .str "comp")]⟩
        ⟨["action_listen", "comp"]⟩
      = .ok ([0, 1], false) :=
  (C1_listen_predicts_marker
    ⟨[⟨"action_listen", Option.none⟩], [("active_component", .str "comp")]⟩
    ⟨["action_listen", "comp"]⟩ "comp" 1 rfl (by decide) rfl rfl).1

/-- C2: when the latest executed action name equals the non-empty
active_component marker and the last `ActionExecuted` event carries a
policy name ending with the policy class name, the prediction is a
vector with exactly one 1, at the index of the listen action, and 0
everywhere else (and no warning, no error). -/
theorem C2_mapped_action_returns_listen (t : CoreTracker) (d : CocoDomain)
    (s p : String) (ev : ActionExecutedEv) (lidx : Nat)
    (hslot : dictGet t.slots "active_component" = some (.str s))
    (hne : s ≠ "")
    (hlast : t.latest_action_name = .str s)
    (hev : t.get_last_action_executed = some ev)
    (hpol : ev.policy = some p)
    (hends : pyEndsWith p POLICY_CLASS_NAME = true)
    (hlidx : d.index_for_action ACTION_LISTEN_NAME = some lidx) :
    predict_action_probabilities t d =
        .ok ((List.replicate d.num_actions 0).set lidx 1, false) ∧
    ((List.replicate d.num_actions 0).set lidx 1).length = d.num_actions ∧
    ((List.replicate d.num_actions 0).set lidx 1)[lidx]? = some 1 ∧
    ∀ j, j < d.num_actions → j ≠ lidx →
      ((List.replicate d.num_actions 0).set lidx 1)[j]? = some 0 := by
  have hlt : lidx < d.num_actions := idxOf?_lt_length hlidx
  have hevname : ev.action_name = s := by
    have hx : t.latest_action_name = .str ev.action_name := by
      unfold CoreTracker.latest_action_name
      unfold CoreTracker.get_last_action_executed at hev
      rw [hev]
    rw [hlast] at hx
    injection hx with hx
    exact hx.symm
  have hpne : p ≠ "" := by
    intro hp
    rw [hp] at hends
    exact absurd hends (by decide)
  refine ⟨?_, ?_, ?_, ?_⟩
  · by_cases hs : s = ACTION_LISTEN_NAME
    · subst hs
      simp only [predict_action_probabilities, hslot, hlast]
      simp [hne, hlidx]
    · simp only [predict_action_probabilities, hslot, hlast]
      simp [hs, hev, hpol, hevname, hpne, hends, hlidx]
  · simp
  · exact List.getElem?_set_eq_of_lt 1 (by simpa using hlt)
  · intro j hj hjne
    rw [List.getElem?_set_ne (by omega : lidx ≠ j)]
    simp [List.getElem?_replicate, hj]

/-- C2 witness: a concrete tracker whose mapped action comp just ran,
predicted by a policy named policy_2_CoCoMappingPolicy, returns the
one-hot vector at the index 0 of action_listen. -/
theorem C2_witness :
    predict_action_probabilities
        ⟨[⟨"comp", some "policy_2_CoCoMappingPolicy"⟩],
          [("active_component", .str "comp")]⟩
        ⟨["action_listen", "comp"]⟩
      = .ok ([1, 0], false) :=
  (C2_mapped_action_returns_listen
    ⟨[⟨"comp", some "policy_2_CoCoMappingPolicy"⟩],
      [("active_component", .str "comp")]⟩
    ⟨["action_listen", "comp"]⟩ "comp" "policy_2_CoCoMappingPolicy"
    ⟨"comp", some "policy_2_CoCoMappingPolicy"⟩ 0
    rfl (by decide) rfl rfl rfl (by decide) rfl).1

/-- C3 counterexample: a tracker whose latest executed action name
equals the non-empty marker, with the last `ActionExecuted` event
attributed to a different policy, yet the prediction is NOT the all-zero
vector: when the marker is the listen action name itself, the listen
branch fires first and predicts one-hot regardless of attribution. -/
theorem C3_counterexample :
    (let t : CoreTracker :=
      ⟨[⟨"action_listen", some "SomeOtherPolicy"⟩],
        [("active_component", .str "action_listen")]⟩
     let d : CocoDomain := ⟨["action_listen"]⟩
     t.latest_action_name = .str "action_listen" ∧
     dictGet t.slots "active_component" = some (.str "action_listen") ∧
     t.get_last_action_executed =
       some ⟨"action_listen", some "SomeOtherPolicy"⟩ ∧
     pyEndsWith "SomeOtherPolicy" POLICY_CLASS_NAME = false ∧
     predict_action_probabilities t d = .ok ([1], false) ∧
     ([1] : List Nat) ≠ List.replicate d.num_actions 0) :=
  ⟨rfl, rfl, rfl, by decide, rfl, by decide⟩

/-- C3 amended: when additionally the marker (equal to the latest action
name) is not the listen action, a last `ActionExecuted` event whose
policy entry is absent or whose name does not end with the policy class
name makes the prediction all-zero (no warning, no error). -/
theorem C3_other_policy_defers (t : CoreTracker) (d : CocoDomain)
    (s : String) (ev : ActionExecutedEv)
    (hslot : dictGet t.slots "active_component" = some (.str s))
    (_hne : s ≠ "")
    (hnl : s ≠ ACTION_LISTEN_NAME)
    (hlast : t.latest_action_name = .str s)
    (hev : t.get_last_action_executed = some ev)
    (hpol : ev.policy = Option.none ∨
      ∃ p, ev.policy = some p ∧ pyEndsWith p POLICY_CLASS_NAME = false) :
    predict_action_probabilities t d
      = .ok (List.replicate d.num_actions 0, false) := by
  have hevname : ev.action_name = s := by
    have hx : t.latest_action_name = .str ev.action_name := by
      unfold CoreTracker.latest_action_name
      unfold CoreTracker.get_last_action_executed at hev
      rw [hev]
    rw [hlast] at hx
    injection hx with hx
    exact hx.symm
  simp only [predict_action_probabilities, hslot, hlast]
  rcases hpol with hpol | ⟨p, hpol, hpf⟩
  · simp [hnl, hev, hpol, hevname]
  · simp [hnl, hev, hpol, hpf, hevname]

/-- C3 witness for the amended claim: the mapped action comp ran last
but was predicted by MemoizationPolicy, so the prediction is all zero. -/
theorem C3_witness :
    predict_action_probabilities
        ⟨[⟨"comp", some "MemoizationPolicy"⟩],
          [("active_component", .str "comp")]⟩
        ⟨["action_listen", "comp"]⟩
      = .ok ([0, 0], false) :=
  C3_other_policy_defers
    ⟨[⟨"comp", some "MemoizationPolicy"⟩],
      [("active_component", .str "comp")]⟩
    ⟨["action_listen", "comp"]⟩ "comp" ⟨"comp", some "MemoizationPolicy"⟩
    rfl (by decide) (by decide) rfl rfl
    (Or.inr ⟨"MemoizationPolicy", rfl, by decide⟩)

/-- C4 counterexample: a tracker whose marker foo names an action
unknown to the domain, but whose latest action is not the listen action:
the call returns the all-zero vector WITHOUT raising any warning (the
warning flag is false), so the claim that every tracker with an unknown
marker produces a warning is false. -/
theorem C4_counterexample :
    (let t : CoreTracker :=
      ⟨[⟨"bar", Option.none⟩], [("active_component", .str "foo")]⟩
     let d : CocoDomain := ⟨["action_listen", "bar"]⟩
     dictGet t.slots "active_component" = some (.str "foo") ∧
     d.index_for_action "foo" = Option.none ∧
     predict_action_probabilities t d
       = .ok (List.replicate d.num_actions 0, false)) :=
  ⟨rfl, by decide, rfl⟩

/-- C4 amended: when the latest executed action is the listen action and
the marker is a non-empty string naming an action unknown to the domain
registry, the prediction is the all-zero vector and the warning was
raised; no exception propagates. -/
theorem C4_unknown_action_warns (t : CoreTracker) (d : CocoDomain)
    (s : String)
    (hslot : dictGet t.slots "active_component" = some (.str s))
    (hne : s ≠ "")
    (hlisten : t.latest_action_name = .str ACTION_LISTEN_NAME)
    (hunknown : d.index_for_action s = Option.none) :
    predict_action_probabilities t d
      = .ok (List.replicate d.num_actions 0, true) := by
  simp only [predict_action_probabilities, hslot, hlisten]
  simp [hne, hunknown]

/-- C4 witness for the amended claim: after a listen, an unknown marker
foo yields the all-zero vector with the warning raised. -/
theorem C4_witness :
    predict_action_probabilities
        ⟨[⟨"action_listen", Option.none⟩], [("active_component", .str "foo")]⟩
        ⟨["action_listen", "bar"]⟩
      = .ok ([0, 0], true) :=
  C4_unknown_action_warns
    ⟨[⟨"action_listen", Option.none⟩], [("active_component", .str "foo")]⟩
    ⟨["action_listen", "bar"]⟩ "foo" rfl (by decide) rfl (by decide)

/-- C5: whenever `predict_action_probabilities` returns a vector, the
vector has length `num_actions` and is either all zero or one-hot: the
all-zero vector with a single entry set to 1 at a valid index. -/
theorem C5_prediction_shape (t : CoreTracker) (d : CocoDomain)
    (v : List Nat) (w : Bool)
    (h : predict_action_probabilities t d = .ok (v, w)) :
    v.length = d.num_actions ∧
    (v = List.replicate d.num_actions 0 ∨
      ∃ i, i < d.num_actions ∧ v = (List.replicate d.num_actions 0).set i 1) := by
  have hrep : v = List.replicate d.num_actions 0 ∨
      ∃ i, i < d.num_actions ∧ v = (List.replicate d.num_actions 0).set i 1 := by
    unfold predict_action_probabilities at h
    split at h
    · simp at h
    · split at h
      · split at h
        · split at h
          · split at h
            · simp at h
              exact Or.inl h.1.symm
            case _ idx hidx =>
              simp at h
              exact Or.inr ⟨idx, idxOf?_lt_length hidx, h.1.symm⟩
          · simp at h
            exact Or.inl h.1.symm
        · simp at h
          exact Or.inl h.1.symm
      · split at h
        · split at h
          · simp at h
          · split at h
            · simp at h
            · split at h
              · split at h
                · split at h
                  · simp at h
                  case _ idx hidx =>
                    simp at h
                    exact Or.inr ⟨idx, idxOf?_lt_length hidx, h.1.symm⟩
                · simp at h
                  exact Or.inl h.1.symm
              · simp at h
                exact Or.inl h.1.symm
        · simp at h
          exact Or.inl h.1.symm
  refine ⟨?_, hrep⟩
  rcases hrep with hv | ⟨i, _, hv⟩ <;> subst hv <;> simp

/-- C5 witness: an idle concrete tracker returns a vector whose length
is the number of domain actions. -/
theorem C5_witness :
    ([0] : List Nat).length = (⟨["action_listen"]⟩ : CocoDomain).num_actions :=
  (C5_prediction_shape
    ⟨[], [("active_component", .str "")]⟩ ⟨["action_listen"]⟩
    [0] false rfl).1
